import Mathlib

/-!
Shallow embedding of `serial.go` (package devhsmtekserial): the translation of
an `OpenOptions` record into a Linux `termios2` control block (`makeTermios2`),
the optional RS-485 control block, and the call sequence of `openInternal`.

Machine integers are modelled as `Nat` (Go `uint`, `uint32`, `byte`) or `Int`
(Go `int`), with explicit `% 2^w` at every narrowing conversion of the source.
The system-call layer (`os.OpenFile`, `syscall.SetNonblock`, the two `ioctl`s)
is modelled by a `SysWorld` record supplying each call's outcome, and
`openInternal` additionally returns the trace of device calls it issued, in
order, so that properties about which calls happen on which path are statable.
-/

namespace SerialLibGo

/-! ## Constants from the source (serial.go lines 28-32, 54-60) -/

def kTCSETS2 : Nat := 0x402C542B
def kBOTHER : Nat := 0x1000
def kNCCS : Nat := 19

def sER_RS485_ENABLED : Nat := 1
def sER_RS485_RTS_ON_SEND : Nat := 2
def sER_RS485_RTS_AFTER_SEND : Nat := 4
def sER_RS485_RX_DURING_TX : Nat := 16
def tIOCSRS485 : Nat := 0x542F

/-! ## Constants from Go's `syscall` / `golang.org/x/sys/unix` packages
(linux/amd64 values, from asm-generic/termbits.h), referenced by the source. -/

def cCLOCAL : Nat := 0x800
def cCREAD : Nat := 0x80
def cCSTOPB : Nat := 0x40
def cPARENB : Nat := 0x100
def cPARODD : Nat := 0x200
def cCS5 : Nat := 0x00
def cCS6 : Nat := 0x10
def cCS7 : Nat := 0x20
def cCS8 : Nat := 0x30

/-- CSIZE, the two-bit character-size field mask; equals
`cCS5 ||| cCS6 ||| cCS7 ||| cCS8`.  Used to state which width flags are set. -/
def cCSIZE : Nat := 0x30

def cCRTSCTS : Nat := 0x80000000
def vVTIME : Nat := 5
def vVMIN : Nat := 6

/-- Valid parity values (serial.go lines 213-219); Go `type ParityMode int`. -/
def PARITY_NONE : Int := 0
def PARITY_ODD : Int := 1
def PARITY_EVEN : Int := 2

/-! ## Data model -/

/-- `OpenOptions` (serial.go lines 257-347).  Go `uint` fields become `Nat`,
Go `int` fields become `Int`, `bool` becomes `Bool`. -/
structure OpenOptions where
  PortName : String
  BaudRate : Nat
  DataBits : Nat
  StopBits : Nat
  ParityMode : Int
  RTSCTSFlowControl : Bool
  InterCharacterTimeout : Nat
  MinimumReadSize : Nat
  Rs485Enable : Bool
  Rs485RtsHighDuringSend : Bool
  Rs485RtsHighAfterSend : Bool
  Rs485RxDuringTx : Bool
  Rs485DelayRtsBeforeSend : Int
  Rs485DelayRtsAfterSend : Int
deriving DecidableEq

/-- `termios2` (serial.go lines 41-50).  `c_cc` is the `[kNCCS]cc_t` array,
modelled as a 19-element list of byte values. -/
structure termios2 where
  c_iflag : Nat
  c_oflag : Nat
  c_cflag : Nat
  c_lflag : Nat
  c_line : Nat
  c_cc : List Nat
  c_ispeed : Nat
  c_ospeed : Nat
deriving DecidableEq

/-- `serial_rs485` (serial.go lines 62-67); all fields are `uint32`. -/
structure serial_rs485 where
  flags : Nat
  delay_rts_before_send : Nat
  delay_rts_after_send : Nat
  padding : List Nat
deriving DecidableEq

/-- Read slot `i` of the control-character array. -/
def ccSlot (t : termios2) (i : Nat) : Nat := t.c_cc.getD i 0

/-- The control-character array built at serial.go lines 89-91:
`ccOpts := [kNCCS]cc_t{}` (all zero), then `ccOpts[syscall.VTIME] = vt` (index 5)
and `ccOpts[syscall.VMIN] = vm` (index 6). -/
def ccArray (vt vm : Nat) : List Nat :=
  [0, 0, 0, 0, 0, vt, vm, 0, 0, 0, 0, 0, 0, 0, 0, 0, 0, 0, 0]

/-- Models serial.go line 78:
`vtime := uint(round(float64(options.InterCharacterTimeout)/100.0) * 100)`
with `round f = math.Floor(f + 0.5)` (line 357), i.e. round-half-up to a
multiple of 100.  For a natural number `t`, the exact rational value is
`floor(t/100 + 1/2) * 100 = ((t + 50) / 100) * 100` in natural division.
The source's float64 evaluation agrees with this exact value for every `t`
relevant here: `float64(t)` and the final conversion are exact for `t < 2^53`;
the correctly rounded quotient `t/100.0` carries a relative error below
`2^-52`, so for `t < 2^45` the absolute error is far below `1/200`, while
`t/100 + 1/2` is at distance at least `1/100` from every integer unless
`t ≡ 50 (mod 100)` — and in that case `t/100 = k + 1/2` is itself a
representable double, making the whole computation exact.  Hence the floors
coincide on `t < 2^45`, which covers every boundary the checks below test
(values ≥ 25550 are rejected in both models). -/
def vtimeOf (t : Nat) : Nat := ((t + 50) / 100) * 100

/-- The `switch options.StopBits` at serial.go lines 100-107: case 1 adds no
flag, case 2 adds `CSTOPB`, anything else is invalid (`none`). -/
def stopBitsFlag (n : Nat) : Option Nat :=
  if n = 1 then some 0
  else if n = 2 then some cCSTOPB
  else none

/-- The `switch options.ParityMode` at serial.go lines 109-120: `PARITY_NONE`
adds no flag, `PARITY_ODD` adds `PARENB ||| PARODD`, `PARITY_EVEN` adds
`PARENB`, anything else is invalid. -/
def parityFlag (p : Int) : Option Nat :=
  if p = PARITY_NONE then some 0
  else if p = PARITY_ODD then some (cPARENB ||| cPARODD)
  else if p = PARITY_EVEN then some cPARENB
  else none

/-- The `switch options.DataBits` at serial.go lines 122-133: 5/6/7/8 add the
corresponding `CSn` width flag, anything else is invalid. -/
def dataBitsFlag (n : Nat) : Option Nat :=
  if n = 5 then some cCS5
  else if n = 6 then some cCS6
  else if n = 7 then some cCS7
  else if n = 8 then some cCS8
  else none

/-- `makeTermios2` (serial.go lines 74-140).  Checks are performed in source
order: the joint `vmin == 0 && vtime < 100` check, the `vtime > 25500` cap
(both on the rounded `vtime`), then the stop-bits, parity and data-bits
switches.  `cc_t(x)` conversions carry the explicit `% 256` of the byte
conversion, and `speed_t(options.BaudRate)` the `% 2^32` of `uint32`.
The successive `t2.c_cflag |= ...` statements of the source are rendered as
one OR chain in the same order (stop bits, parity, data bits, RTS/CTS). -/
def makeTermios2 (options : OpenOptions) : Except String termios2 :=
  if options.MinimumReadSize = 0 ∧ vtimeOf options.InterCharacterTimeout < 100 then
    Except.error "invalid values for InterCharacterTimeout and MinimumReadSize"
  else if 25500 < vtimeOf options.InterCharacterTimeout then
    Except.error "invalid value for InterCharacterTimeout"
  else
    match stopBitsFlag options.StopBits with
    | none => Except.error "invalid setting for StopBits"
    | some sb =>
      match parityFlag options.ParityMode with
      | none => Except.error "invalid setting for ParityMode"
      | some pf =>
        match dataBitsFlag options.DataBits with
        | none => Except.error "invalid setting for DataBits"
        | some db =>
          Except.ok
            { c_iflag := 0
              c_oflag := 0
              c_cflag := ((((cCLOCAL ||| cCREAD ||| kBOTHER) ||| sb) ||| pf) ||| db) |||
                (if options.RTSCTSFlowControl then cCRTSCTS else 0)
              c_lflag := 0
              c_line := 0
              c_cc := ccArray ((vtimeOf options.InterCharacterTimeout / 100) % 256)
                (options.MinimumReadSize % 256)
              c_ispeed := options.BaudRate % 4294967296
              c_ospeed := options.BaudRate % 4294967296 }

/-- The RS-485 control block built at serial.go lines 179-192: flags start at
`sER_RS485_ENABLED`, then `|= sER_RS485_RTS_ON_SEND` if `Rs485RtsHighDuringSend`
and `|= sER_RS485_RTS_AFTER_SEND` if `Rs485RtsHighAfterSend`; the delay fields
are the Go `uint32(...)` conversions of the signed delay options (value mod
2^32); the padding is the five zeroed reserved words. -/
def mkRs485 (options : OpenOptions) : serial_rs485 :=
  { flags := sER_RS485_ENABLED |||
      (if options.Rs485RtsHighDuringSend then sER_RS485_RTS_ON_SEND else 0) |||
      (if options.Rs485RtsHighAfterSend then sER_RS485_RTS_AFTER_SEND else 0)
    delay_rts_before_send := (options.Rs485DelayRtsBeforeSend % 4294967296).toNat
    delay_rts_after_send := (options.Rs485DelayRtsAfterSend % 4294967296).toNat
    padding := [0, 0, 0, 0, 0] }

/-- Argument of an `ioctl` call, as passed by pointer in the source. -/
inductive IoctlArg where
  | termiosArg (t : termios2)
  | rs485Arg (r : serial_rs485)
deriving DecidableEq

/-- One device call issued by `openInternal`.  `closeDevice` is the event a
`file.Close()` would produce; the source never issues it, and its presence in
the event type is what makes descriptor-leak properties statable. -/
inductive SysEvent where
  | openDevice (path : String)
  | setNonblock
  | closeDevice
  | ioctl (request : Nat) (arg : IoctlArg)
deriving DecidableEq

/-- Outcomes the environment supplies for each system call `openInternal`
makes, in order: the `os.OpenFile` result, the `syscall.SetNonblock` result,
and the `(r, errno)` pair of each of the two ioctls. -/
structure SysWorld where
  openErr : Option String
  nonblockErr : Option String
  tcsets2Result : Nat × Nat
  rs485Result : Nat × Nat

/-- `openInternal` (serial.go lines 142-210), with the device-call trace made
explicit.  Mirrors the source's control flow exactly: open (non-blocking),
clear the non-blocking flag, build the termios2 block, apply it via the
`TCSETS2` ioctl (distinguishing `errno != 0` from an unexpected nonzero `r`),
then, only when `Rs485Enable` is set, build and apply the RS-485 block via
`TIOCSRS485`.  No failure path issues a close call, exactly as in the source,
which returns the error without calling `file.Close()`. -/
def openInternal (w : SysWorld) (options : OpenOptions) :
    Except String Unit × List SysEvent :=
  match w.openErr with
  | some e => (Except.error e, [SysEvent.openDevice options.PortName])
  | none =>
    match w.nonblockErr with
    | some e =>
      (Except.error e, [SysEvent.openDevice options.PortName, SysEvent.setNonblock])
    | none =>
      match makeTermios2 options with
      | Except.error e =>
        (Except.error e, [SysEvent.openDevice options.PortName, SysEvent.setNonblock])
      | Except.ok t2 =>
        let ev2 := [SysEvent.openDevice options.PortName, SysEvent.setNonblock,
          SysEvent.ioctl kTCSETS2 (IoctlArg.termiosArg t2)]
        if w.tcsets2Result.2 ≠ 0 then (Except.error "SYS_IOCTL", ev2)
        else if w.tcsets2Result.1 ≠ 0 then
          (Except.error "unknown error from SYS_IOCTL", ev2)
        else if options.Rs485Enable then
          let ev3 := ev2 ++ [SysEvent.ioctl tIOCSRS485 (IoctlArg.rs485Arg (mkRs485 options))]
          if w.rs485Result.2 ≠ 0 then (Except.error "SYS_IOCTL (RS485)", ev3)
          else if w.rs485Result.1 ≠ 0 then
            (Except.error "Unknown error from SYS_IOCTL (RS485)", ev3)
          else (Except.ok (), ev3)
        else (Except.ok (), ev2)

/-- `Open` (serial.go lines 350-353) redirects to `openInternal`. -/
def Open (w : SysWorld) (options : OpenOptions) :
    Except String Unit × List SysEvent :=
  openInternal w options

/-! ## Concrete fixtures used by counterexamples and witnesses -/

/-- A world in which every system call succeeds. -/
def goodWorld : SysWorld :=
  { openErr := none, nonblockErr := none, tcsets2Result := (0, 0), rs485Result := (0, 0) }

/-- A world in which the open succeeds but clearing the non-blocking flag fails. -/
def nonblockFailWorld : SysWorld :=
  { openErr := none, nonblockErr := some "operation not permitted",
    tcsets2Result := (0, 0), rs485Result := (0, 0) }

/-- Baseline valid options: 9600 8N1, timeout 0, minimum read size 1. -/
def opts7 : OpenOptions :=
  { PortName := "/dev/ttyS0", BaudRate := 9600, DataBits := 8, StopBits := 1,
    ParityMode := PARITY_NONE, RTSCTSFlowControl := false,
    InterCharacterTimeout := 0, MinimumReadSize := 1,
    Rs485Enable := false, Rs485RtsHighDuringSend := false,
    Rs485RtsHighAfterSend := false, Rs485RxDuringTx := false,
    Rs485DelayRtsBeforeSend := 0, Rs485DelayRtsAfterSend := 0 }

/-- The termios2 block `makeTermios2` builds for `opts7`. -/
def t7 : termios2 :=
  { c_iflag := 0, c_oflag := 0, c_cflag := 0x18B0, c_lflag := 0, c_line := 0,
    c_cc := ccArray 0 1, c_ispeed := 9600, c_ospeed := 9600 }

/-- Options with timeout 50 ms and minimum read size 0 (the pair of claim C1). -/
def opts50 : OpenOptions :=
  { opts7 with InterCharacterTimeout := 50, MinimumReadSize := 0 }

/-- Options with timeout 25501 ms (the input of claim C2). -/
def opts25501 : OpenOptions :=
  { opts7 with InterCharacterTimeout := 25501 }

/-- Options with timeout 149 ms and minimum read size 1. -/
def opts149 : OpenOptions :=
  { opts7 with InterCharacterTimeout := 149 }

/-- The termios2 block `makeTermios2` builds for `opts149`. -/
def t149 : termios2 :=
  { c_iflag := 0, c_oflag := 0, c_cflag := 0x18B0, c_lflag := 0, c_line := 0,
    c_cc := ccArray 1 1, c_ispeed := 9600, c_ospeed := 9600 }

/-- Options with minimum read size 256. -/
def optsMin256 : OpenOptions :=
  { opts7 with MinimumReadSize := 256 }

/-- The termios2 block `makeTermios2` builds for `optsMin256`: the VMIN byte
slot holds `256 % 256 = 0`. -/
def tMin256 : termios2 :=
  { c_iflag := 0, c_oflag := 0, c_cflag := 0x18B0, c_lflag := 0, c_line := 0,
    c_cc := ccArray 0 0, c_ispeed := 9600, c_ospeed := 9600 }

/-- Options with invalid DataBits = 4 (otherwise valid). -/
def optsBadData : OpenOptions :=
  { opts7 with DataBits := 4 }

/-- Options with odd parity (otherwise `opts7`). -/
def optsOdd : OpenOptions :=
  { opts7 with ParityMode := PARITY_ODD }

/-- The termios2 block `makeTermios2` builds for `optsOdd`:
`0x18B0 ||| PARENB ||| PARODD = 0x1BB0`. -/
def tOdd : termios2 :=
  { c_iflag := 0, c_oflag := 0, c_cflag := 0x1BB0, c_lflag := 0, c_line := 0,
    c_cc := ccArray 0 1, c_ispeed := 9600, c_ospeed := 9600 }

/-- RS-485-enabled options with a negative before-send delay. -/
def optsRs485Neg : OpenOptions :=
  { opts7 with Rs485Enable := true, Rs485DelayRtsBeforeSend := -1 }

/-- RS-485-enabled options with RTS high during send and concrete delays. -/
def optsRs485On : OpenOptions :=
  { opts7 with
    Rs485Enable := true
    Rs485RtsHighDuringSend := true
    Rs485DelayRtsBeforeSend := 3
    Rs485DelayRtsAfterSend := 4 }

end SerialLibGo

deriving instance DecidableEq for Except

namespace SerialLibGo

/-! ## Helper lemmas -/

/-- The rounded timeout is below 100 exactly when the raw timeout is below 50. -/
theorem vtimeOf_lt_100_iff (t : Nat) : vtimeOf t < 100 ↔ t < 50 := by
  unfold vtimeOf
  omega

/-- The rounded timeout exceeds 25500 exactly when the raw timeout is at least 25550. -/
theorem vtimeOf_cap_iff (t : Nat) : 25500 < vtimeOf t ↔ 25550 ≤ t := by
  unfold vtimeOf
  omega

theorem stopBitsFlag_inv {n sb : Nat} (h : stopBitsFlag n = some sb) :
    (n = 1 ∧ sb = 0) ∨ (n = 2 ∧ sb = cCSTOPB) := by
  unfold stopBitsFlag at h
  split_ifs at h <;> simp_all

theorem parityFlag_inv {p : Int} {pf : Nat} (h : parityFlag p = some pf) :
    (p = PARITY_NONE ∧ pf = 0) ∨ (p = PARITY_ODD ∧ pf = (cPARENB ||| cPARODD)) ∨
      (p = PARITY_EVEN ∧ pf = cPARENB) := by
  unfold parityFlag at h
  split_ifs at h <;> simp_all

theorem dataBitsFlag_inv {n db : Nat} (h : dataBitsFlag n = some db) :
    (n = 5 ∧ db = cCS5) ∨ (n = 6 ∧ db = cCS6) ∨ (n = 7 ∧ db = cCS7) ∨
      (n = 8 ∧ db = cCS8) := by
  unfold dataBitsFlag at h
  split_ifs at h <;> simp_all

/-- Inversion of a successful `makeTermios2`: the three switches accepted
their inputs, both timeout checks passed, and the result is exactly the
record the source constructs. -/
theorem makeTermios2_ok_inv (opts : OpenOptions) (t2 : termios2)
    (h : makeTermios2 opts = Except.ok t2) :
    ∃ sb pf db, stopBitsFlag opts.StopBits = some sb ∧
      parityFlag opts.ParityMode = some pf ∧
      dataBitsFlag opts.DataBits = some db ∧
      ¬(opts.MinimumReadSize = 0 ∧ vtimeOf opts.InterCharacterTimeout < 100) ∧
      vtimeOf opts.InterCharacterTimeout ≤ 25500 ∧
      t2 = { c_iflag := 0, c_oflag := 0,
             c_cflag := ((((cCLOCAL ||| cCREAD ||| kBOTHER) ||| sb) ||| pf) ||| db) |||
               (if opts.RTSCTSFlowControl then cCRTSCTS else 0),
             c_lflag := 0, c_line := 0,
             c_cc := ccArray ((vtimeOf opts.InterCharacterTimeout / 100) % 256)
               (opts.MinimumReadSize % 256),
             c_ispeed := opts.BaudRate % 4294967296,
             c_ospeed := opts.BaudRate % 4294967296 } := by
  unfold makeTermios2 at h
  split at h
  · exact absurd h (by simp)
  split at h
  · exact absurd h (by simp)
  split at h
  · exact absurd h (by simp)
  split at h
  · exact absurd h (by simp)
  split at h
  · exact absurd h (by simp)
  rename_i hc1 hc2 x1 sb hsb x2 pf hpf x3 db hdb
  exact ⟨sb, pf, db, hsb, hpf, hdb, hc1, by omega, (Except.ok.inj h).symm⟩

/-- Round-half-up as a rational-floor formula equals natural division. -/
theorem floor_half_div (t : Nat) :
    Nat.floor ((t : ℚ) / 100 + 1 / 2) = (t + 50) / 100 := by
  have h : ((t : ℚ) / 100 + 1 / 2) = ((t + 50 : ℕ) : ℚ) / ((100 : ℕ) : ℚ) := by
    push_cast
    ring
  rw [h, Nat.floor_div_nat, Nat.floor_natCast]

/-- The flag properties of every RS-485 block the code builds. -/
theorem mkRs485_flags (opts : OpenOptions) :
    (mkRs485 opts).flags &&& sER_RS485_ENABLED = sER_RS485_ENABLED ∧
    ((mkRs485 opts).flags &&& sER_RS485_RTS_ON_SEND = sER_RS485_RTS_ON_SEND ↔
      opts.Rs485RtsHighDuringSend = true) ∧
    ((mkRs485 opts).flags &&& sER_RS485_RTS_AFTER_SEND = sER_RS485_RTS_AFTER_SEND ↔
      opts.Rs485RtsHighAfterSend = true) ∧
    (mkRs485 opts).flags &&& sER_RS485_RX_DURING_TX = 0 := by
  cases hd : opts.Rs485RtsHighDuringSend <;> cases ha : opts.Rs485RtsHighAfterSend <;>
    simp only [mkRs485, hd, ha] <;> decide

/-- If an RS-485 ioctl appears in the trace then RS-485 mode was requested and
the argument is exactly the block built from the options. -/
theorem openInternal_rs485_mem (w : SysWorld) (opts : OpenOptions) (arg : IoctlArg)
    (hmem : SysEvent.ioctl tIOCSRS485 arg ∈ (openInternal w opts).2) :
    opts.Rs485Enable = true ∧ arg = IoctlArg.rs485Arg (mkRs485 opts) := by
  rcases hw : w.openErr with _ | e
  · rcases hnb : w.nonblockErr with _ | e
    · rcases hmk : makeTermios2 opts with e | t2
      · simp [openInternal, hw, hnb, hmk] at hmem
      · by_cases h1 : w.tcsets2Result.2 = 0
        · by_cases h2 : w.tcsets2Result.1 = 0
          · by_cases hen : opts.Rs485Enable
            · by_cases h3 : w.rs485Result.2 = 0
              · by_cases h4 : w.rs485Result.1 = 0
                · simp [openInternal, hw, hnb, hmk, h1, h2, hen, h3, h4,
                    tIOCSRS485, kTCSETS2] at hmem
                  exact ⟨hen, hmem⟩
                · simp [openInternal, hw, hnb, hmk, h1, h2, hen, h3, h4,
                    tIOCSRS485, kTCSETS2] at hmem
                  exact ⟨hen, hmem⟩
              · simp [openInternal, hw, hnb, hmk, h1, h2, hen, h3,
                  tIOCSRS485, kTCSETS2] at hmem
                exact ⟨hen, hmem⟩
            · simp [openInternal, hw, hnb, hmk, h1, h2, hen,
                tIOCSRS485, kTCSETS2] at hmem
          · simp [openInternal, hw, hnb, hmk, h1, h2, tIOCSRS485, kTCSETS2] at hmem
        · simp [openInternal, hw, hnb, hmk, h1, tIOCSRS485, kTCSETS2] at hmem
    · simp [openInternal, hw, hnb] at hmem
  · simp [openInternal, hw] at hmem

/-! ## Claim theorems -/

/-- Claim C1, counterexample: the claim asserts that every options record with
`MinimumReadSize = 0` and raw `InterCharacterTimeout < 100` fails validation,
and in particular that Open fails for the pair (timeout = 50, minSize = 0).
In fact Open succeeds on that pair: 50 rounds up to 100 and the check is
applied to the rounded value. -/
theorem C1_counterexample :
    opts50.MinimumReadSize = 0 ∧ opts50.InterCharacterTimeout = 50 ∧
    opts50.InterCharacterTimeout < 100 ∧
    (Open goodWorld opts50).1 = Except.ok () := by
  decide

/-- Claim C1, amended: validation fails with the joint
timeout/minimum-read-size error exactly when `MinimumReadSize = 0` and the
rounded inter-character timeout is below 100 ms, i.e. when the raw timeout is
at most 49 ms; the check applies to the rounded value, so (50, 0) passes. -/
theorem C1_amended (opts : OpenOptions) :
    makeTermios2 opts =
      Except.error "invalid values for InterCharacterTimeout and MinimumReadSize" ↔
    (opts.MinimumReadSize = 0 ∧ opts.InterCharacterTimeout < 50) := by
  have hlt := vtimeOf_lt_100_iff opts.InterCharacterTimeout
  unfold makeTermios2
  split
  · rename_i hc
    exact iff_of_true rfl ⟨hc.1, hlt.mp hc.2⟩
  · rename_i hc
    have hr : ¬(opts.MinimumReadSize = 0 ∧ opts.InterCharacterTimeout < 50) :=
      fun hx => hc ⟨hx.1, hlt.mpr hx.2⟩
    split
    · exact iff_of_false (by decide) hr
    · split
      · exact iff_of_false (by decide) hr
      · split
        · exact iff_of_false (by decide) hr
        · split
          · exact iff_of_false (by decide) hr
          · exact iff_of_false (by simp) hr

/-- Claim C2, counterexample: the claim asserts that input 25501 is rejected
because the cap check supposedly uses the raw pre-rounding value.  In fact
25501 rounds down to 25500 and is accepted. -/
theorem C2_counterexample :
    opts25501.InterCharacterTimeout = 25501 ∧ 25500 < opts25501.InterCharacterTimeout ∧
    (makeTermios2 opts25501).isOk = true := by
  decide

/-- Claim C2, amended: validation fails with the timeout-cap error exactly
when the rounded inter-character timeout exceeds 25500 ms, i.e. when the raw
timeout is at least 25550 ms; the cap applies to the rounded value, so inputs
25501 through 25549 are accepted. -/
theorem C2_amended (opts : OpenOptions) :
    makeTermios2 opts = Except.error "invalid value for InterCharacterTimeout" ↔
    25550 ≤ opts.InterCharacterTimeout := by
  have hgt := vtimeOf_cap_iff opts.InterCharacterTimeout
  have hlt := vtimeOf_lt_100_iff opts.InterCharacterTimeout
  unfold makeTermios2
  split
  · rename_i hc
    refine iff_of_false (by decide) fun hx => ?_
    have h50 := hlt.mp hc.2
    omega
  · rename_i hc
    split
    · rename_i hc2
      exact iff_of_true rfl (hgt.mp hc2)
    · rename_i hc2
      have hr : ¬25550 ≤ opts.InterCharacterTimeout := fun hx => hc2 (hgt.mpr hx)
      split
      · exact iff_of_false (by decide) hr
      · split
        · exact iff_of_false (by decide) hr
        · split
          · exact iff_of_false (by decide) hr
          · exact iff_of_false (by simp) hr

/-- Claim C3 (code bug): on the failure path where the device open succeeded
and clearing the non-blocking flag fails, `openInternal` returns the error
with the descriptor still open: the call trace contains the open call and no
close call.  The source has no `file.Close()` on any error path, contradicting
the stated descriptor-leak guarantee. -/
theorem C3_leak_evaluation :
    (openInternal nonblockFailWorld opts7).1 = Except.error "operation not permitted" ∧
    SysEvent.openDevice opts7.PortName ∈ (openInternal nonblockFailWorld opts7).2 ∧
    SysEvent.closeDevice ∉ (openInternal nonblockFailWorld opts7).2 := by
  decide

/-- Claim C4, counterexample: the claim asserts that for invalid options Open
returns the invalid-configuration error without issuing any device open call.
For DataBits = 4 the error is returned, but the open call has been issued:
validation runs only after the device is opened. -/
theorem C4_counterexample :
    (Open goodWorld optsBadData).1 = Except.error "invalid setting for DataBits" ∧
    SysEvent.openDevice optsBadData.PortName ∈ (Open goodWorld optsBadData).2 := by
  decide

/-- Claim C4, amended: for every options record rejected by validation (and a
device whose open and flag-clear succeed), Open returns the
invalid-configuration error, but only after issuing the device open call and
the non-blocking flag clear; no configuration ioctl is issued. -/
theorem C4_amended (w : SysWorld) (opts : OpenOptions) (e : String)
    (hopen : w.openErr = none) (hnb : w.nonblockErr = none)
    (hmk : makeTermios2 opts = Except.error e) :
    Open w opts =
      (Except.error e, [SysEvent.openDevice opts.PortName, SysEvent.setNonblock]) := by
  simp [Open, openInternal, hopen, hnb, hmk]

/-- Witness for C4_amended at a concrete invalid option set and world. -/
theorem C4_witness :
    Open goodWorld optsBadData =
      (Except.error "invalid setting for DataBits",
        [SysEvent.openDevice optsBadData.PortName, SysEvent.setNonblock]) :=
  C4_amended goodWorld optsBadData "invalid setting for DataBits" rfl rfl (by decide)

/-- Claim C5: for every options record accepted by validation, the VTIME slot
of the control-character array holds the inter-character timeout rounded
half-up to a multiple of 100 ms and divided by 100 — that is,
`floor(timeout/100 + 1/2)` tenths of a second. -/
theorem C5_quantization (opts : OpenOptions) (t2 : termios2)
    (h : makeTermios2 opts = Except.ok t2) :
    ccSlot t2 vVTIME = Nat.floor ((opts.InterCharacterTimeout : ℚ) / 100 + 1 / 2) := by
  obtain ⟨sb, pf, db, hsb, hpf, hdb, hc1, hcap, ht⟩ := makeTermios2_ok_inv opts t2 h
  subst ht
  rw [floor_half_div]
  show vtimeOf opts.InterCharacterTimeout / 100 % 256 = (opts.InterCharacterTimeout + 50) / 100
  unfold vtimeOf at hcap ⊢
  omega

/-- Witness for C5_quantization: timeout 149 ms is stored as 1 tenth of a second. -/
theorem C5_witness :
    ccSlot t149 vVTIME = Nat.floor ((opts149.InterCharacterTimeout : ℚ) / 100 + 1 / 2) ∧
    ccSlot t149 vVTIME = 1 :=
  ⟨C5_quantization opts149 t149 (by decide), by decide⟩

/-- Claim C6, counterexample: the claim asserts the VMIN slot equals the raw
`MinimumReadSize` for every unsigned value.  For `MinimumReadSize = 256` the
byte-sized slot holds 0, not 256. -/
theorem C6_counterexample :
    makeTermios2 optsMin256 = Except.ok tMin256 ∧
    optsMin256.MinimumReadSize = 256 ∧ ccSlot tMin256 vVMIN = 0 := by
  decide

/-- Claim C6, amended: for every options record accepted by validation, the
VMIN slot holds `MinimumReadSize` reduced modulo 256 (the byte conversion of
the source); it equals the raw value exactly when that value is below 256. -/
theorem C6_amended (opts : OpenOptions) (t2 : termios2)
    (h : makeTermios2 opts = Except.ok t2) :
    ccSlot t2 vVMIN = opts.MinimumReadSize % 256 := by
  obtain ⟨sb, pf, db, hsb, hpf, hdb, hc1, hcap, ht⟩ := makeTermios2_ok_inv opts t2 h
  subst ht
  rfl

/-- Witness for C6_amended at `MinimumReadSize = 256`. -/
theorem C6_witness : ccSlot tMin256 vVMIN = optsMin256.MinimumReadSize % 256 :=
  C6_amended optsMin256 tMin256 (by decide)

/-- Claim C7: for options {baud 9600, 8 data bits, 1 stop bit, no parity,
timeout 0, minimum read size 1}, the constructed control block has control
flags exactly CLOCAL ||| CREAD ||| BOTHER ||| CS8, both speed fields 9600,
VMIN slot 1 and VTIME slot 0. -/
theorem C7_scenario :
    makeTermios2 opts7 = Except.ok t7 ∧
    t7.c_cflag = (cCLOCAL ||| cCREAD ||| kBOTHER ||| cCS8) ∧
    t7.c_ispeed = 9600 ∧ t7.c_ospeed = 9600 ∧
    ccSlot t7 vVMIN = 1 ∧ ccSlot t7 vVTIME = 0 := by
  decide

/-- Claim C8: every accepted options record has DataBits in {5,6,7,8} and its
control flags masked by the CSIZE field equal the corresponding width flag
(so no other width flag is set); the four width flags are pairwise distinct;
and for DataBits outside {5,6,7,8} construction fails with an error. -/
theorem C8_databits :
    (∀ opts t2, makeTermios2 opts = Except.ok t2 →
      ∃ db, dataBitsFlag opts.DataBits = some db ∧ t2.c_cflag &&& cCSIZE = db ∧
        (opts.DataBits = 5 ∨ opts.DataBits = 6 ∨ opts.DataBits = 7 ∨ opts.DataBits = 8)) ∧
    ([cCS5, cCS6, cCS7, cCS8] : List Nat).Nodup ∧
    (∀ opts, opts.DataBits ≠ 5 → opts.DataBits ≠ 6 → opts.DataBits ≠ 7 →
      opts.DataBits ≠ 8 → ∃ e, makeTermios2 opts = Except.error e) := by
  refine ⟨?_, by decide, ?_⟩
  · intro opts t2 h
    obtain ⟨sb, pf, db, hsb, hpf, hdb, hc1, hcap, ht⟩ := makeTermios2_ok_inv opts t2 h
    refine ⟨db, hdb, ?_, ?_⟩
    · subst ht
      rcases stopBitsFlag_inv hsb with ⟨_, rfl⟩ | ⟨_, rfl⟩ <;>
        rcases parityFlag_inv hpf with ⟨_, rfl⟩ | ⟨_, rfl⟩ | ⟨_, rfl⟩ <;>
          rcases dataBitsFlag_inv hdb with ⟨_, rfl⟩ | ⟨_, rfl⟩ | ⟨_, rfl⟩ | ⟨_, rfl⟩ <;>
            cases hrts : opts.RTSCTSFlowControl <;> simp only [hrts] <;> decide
    · rcases dataBitsFlag_inv hdb with ⟨h5, _⟩ | ⟨h6, _⟩ | ⟨h7, _⟩ | ⟨h8, _⟩ <;> tauto
  · intro opts h5 h6 h7 h8
    have hdb : dataBitsFlag opts.DataBits = none := by
      unfold dataBitsFlag
      rw [if_neg h5, if_neg h6, if_neg h7, if_neg h8]
    by_cases hc1 : opts.MinimumReadSize = 0 ∧ vtimeOf opts.InterCharacterTimeout < 100
    · exact ⟨_, by unfold makeTermios2; rw [if_pos hc1]⟩
    by_cases hc2 : 25500 < vtimeOf opts.InterCharacterTimeout
    · exact ⟨_, by unfold makeTermios2; rw [if_neg hc1, if_pos hc2]⟩
    rcases hsb : stopBitsFlag opts.StopBits with _ | sb
    · exact ⟨_, by unfold makeTermios2; rw [if_neg hc1, if_neg hc2, hsb]⟩
    rcases hpf : parityFlag opts.ParityMode with _ | pf
    · exact ⟨_, by unfold makeTermios2; rw [if_neg hc1, if_neg hc2, hsb, hpf]⟩
    exact ⟨_, by unfold makeTermios2; rw [if_neg hc1, if_neg hc2, hsb, hpf, hdb]⟩

/-- Witness for C8_databits at DataBits = 8 (success part) and DataBits = 4
(failure part). -/
theorem C8_witness :
    (∃ db, dataBitsFlag opts7.DataBits = some db ∧ t7.c_cflag &&& cCSIZE = db ∧
      (opts7.DataBits = 5 ∨ opts7.DataBits = 6 ∨ opts7.DataBits = 7 ∨ opts7.DataBits = 8)) ∧
    (∃ e, makeTermios2 optsBadData = Except.error e) :=
  ⟨C8_databits.1 opts7 t7 (by decide),
   C8_databits.2.2 optsBadData (by decide) (by decide) (by decide) (by decide)⟩

/-- Claim C9: parity mapping of the constructed control flags — ODD sets both
PARENB and PARODD, EVEN sets only PARENB, NONE sets neither; any other parity
value makes construction fail with an error. -/
theorem C9_parity :
    (∀ opts t2, makeTermios2 opts = Except.ok t2 →
      ((opts.ParityMode = PARITY_ODD →
          t2.c_cflag &&& cPARENB = cPARENB ∧ t2.c_cflag &&& cPARODD = cPARODD) ∧
        (opts.ParityMode = PARITY_EVEN →
          t2.c_cflag &&& cPARENB = cPARENB ∧ t2.c_cflag &&& cPARODD = 0) ∧
        (opts.ParityMode = PARITY_NONE →
          t2.c_cflag &&& cPARENB = 0 ∧ t2.c_cflag &&& cPARODD = 0))) ∧
    (∀ opts, opts.ParityMode ≠ PARITY_NONE → opts.ParityMode ≠ PARITY_ODD →
      opts.ParityMode ≠ PARITY_EVEN → ∃ e, makeTermios2 opts = Except.error e) := by
  constructor
  · intro opts t2 h
    obtain ⟨sb, pf, db, hsb, hpf, hdb, hc1, hcap, ht⟩ := makeTermios2_ok_inv opts t2 h
    subst ht
    rcases parityFlag_inv hpf with ⟨hp, rfl⟩ | ⟨hp, rfl⟩ | ⟨hp, rfl⟩ <;>
      rcases stopBitsFlag_inv hsb with ⟨_, rfl⟩ | ⟨_, rfl⟩ <;>
        rcases dataBitsFlag_inv hdb with ⟨_, rfl⟩ | ⟨_, rfl⟩ | ⟨_, rfl⟩ | ⟨_, rfl⟩ <;>
          cases hrts : opts.RTSCTSFlowControl <;> rw [hp] <;> simp only [hrts] <;> decide
  · intro opts h0 h1 h2
    have hpf : parityFlag opts.ParityMode = none := by
      unfold parityFlag
      rw [if_neg h0, if_neg h1, if_neg h2]
    by_cases hc1 : opts.MinimumReadSize = 0 ∧ vtimeOf opts.InterCharacterTimeout < 100
    · exact ⟨_, by unfold makeTermios2; rw [if_pos hc1]⟩
    by_cases hc2 : 25500 < vtimeOf opts.InterCharacterTimeout
    · exact ⟨_, by unfold makeTermios2; rw [if_neg hc1, if_pos hc2]⟩
    rcases hsb : stopBitsFlag opts.StopBits with _ | sb
    · exact ⟨_, by unfold makeTermios2; rw [if_neg hc1, if_neg hc2, hsb]⟩
    exact ⟨_, by unfold makeTermios2; rw [if_neg hc1, if_neg hc2, hsb, hpf]⟩

/-- Witness for C9_parity at odd parity (success part) and parity value 3
(failure part). -/
theorem C9_witness :
    (tOdd.c_cflag &&& cPARENB = cPARENB ∧ tOdd.c_cflag &&& cPARODD = cPARODD) ∧
    (∃ e, makeTermios2 { opts7 with ParityMode := 3 } = Except.error e) :=
  ⟨((C9_parity.1 optsOdd tOdd (by decide)).1) (by decide),
   C9_parity.2 { opts7 with ParityMode := 3 } (by decide) (by decide) (by decide)⟩

/-- Claim C10, counterexample: the claim asserts the delay fields of the
applied RS-485 block are copied verbatim from the options.  For a before-send
delay of -1 the applied block holds 4294967295 (the uint32 conversion), which
is not the option value. -/
theorem C10_counterexample :
    optsRs485Neg.Rs485Enable = true ∧
    optsRs485Neg.Rs485DelayRtsBeforeSend = -1 ∧
    SysEvent.ioctl tIOCSRS485 (IoctlArg.rs485Arg (mkRs485 optsRs485Neg)) ∈
      (Open goodWorld optsRs485Neg).2 ∧
    ((mkRs485 optsRs485Neg).delay_rts_before_send : Int) ≠
      optsRs485Neg.Rs485DelayRtsBeforeSend := by
  decide

/-- Claim C10, amended: when Rs485Enable is false no RS-485 ioctl is issued;
every RS-485 block that is applied has the enabled flag set, its RTS-on-send
and RTS-after-send flags mirror the two boolean options, the RX-during-TX flag
is never set, the delay fields are the option values reduced modulo 2^32
(hence copied verbatim whenever they are non-negative and below 2^32), and the
reserved padding is zeroed. -/
theorem C10_amended (w : SysWorld) (opts : OpenOptions) :
    (opts.Rs485Enable = false →
      ∀ arg, SysEvent.ioctl tIOCSRS485 arg ∉ (openInternal w opts).2) ∧
    (∀ blk, SysEvent.ioctl tIOCSRS485 (IoctlArg.rs485Arg blk) ∈ (openInternal w opts).2 →
      opts.Rs485Enable = true ∧ blk = mkRs485 opts ∧
      blk.flags &&& sER_RS485_ENABLED = sER_RS485_ENABLED ∧
      (blk.flags &&& sER_RS485_RTS_ON_SEND = sER_RS485_RTS_ON_SEND ↔
        opts.Rs485RtsHighDuringSend = true) ∧
      (blk.flags &&& sER_RS485_RTS_AFTER_SEND = sER_RS485_RTS_AFTER_SEND ↔
        opts.Rs485RtsHighAfterSend = true) ∧
      blk.flags &&& sER_RS485_RX_DURING_TX = 0 ∧
      blk.delay_rts_before_send = (opts.Rs485DelayRtsBeforeSend % 4294967296).toNat ∧
      blk.delay_rts_after_send = (opts.Rs485DelayRtsAfterSend % 4294967296).toNat ∧
      blk.padding = [0, 0, 0, 0, 0]) := by
  constructor
  · intro hf arg hmem
    obtain ⟨hen, _⟩ := openInternal_rs485_mem w opts arg hmem
    rw [hf] at hen
    exact absurd hen (by decide)
  · intro blk hmem
    obtain ⟨hen, harg⟩ := openInternal_rs485_mem w opts _ hmem
    have hblk : blk = mkRs485 opts := IoctlArg.rs485Arg.inj harg
    subst hblk
    obtain ⟨hf1, hf2, hf3, hf4⟩ := mkRs485_flags opts
    exact ⟨hen, rfl, hf1, hf2, hf3, hf4, rfl, rfl, rfl⟩

/-- Witness for C10_amended at concrete RS-485 options (enabled, RTS high
during send, delays 3 and 4) under an all-success world. -/
theorem C10_witness :
    optsRs485On.Rs485Enable = true ∧
    mkRs485 optsRs485On = mkRs485 optsRs485On ∧
    (mkRs485 optsRs485On).flags &&& sER_RS485_ENABLED = sER_RS485_ENABLED ∧
    ((mkRs485 optsRs485On).flags &&& sER_RS485_RTS_ON_SEND = sER_RS485_RTS_ON_SEND ↔
      optsRs485On.Rs485RtsHighDuringSend = true) ∧
    ((mkRs485 optsRs485On).flags &&& sER_RS485_RTS_AFTER_SEND = sER_RS485_RTS_AFTER_SEND ↔
      optsRs485On.Rs485RtsHighAfterSend = true) ∧
    (mkRs485 optsRs485On).flags &&& sER_RS485_RX_DURING_TX = 0 ∧
    (mkRs485 optsRs485On).delay_rts_before_send =
      (optsRs485On.Rs485DelayRtsBeforeSend % 4294967296).toNat ∧
    (mkRs485 optsRs485On).delay_rts_after_send =
      (optsRs485On.Rs485DelayRtsAfterSend % 4294967296).toNat ∧
    (mkRs485 optsRs485On).padding = [0, 0, 0, 0, 0] :=
  (C10_amended goodWorld optsRs485On).2 (mkRs485 optsRs485On) (by decide)

end SerialLibGo
